import Mathlib

/-!
# Verification of the build-discovery and install-orchestration workflow

Shallow embedding of the installer scripts
(`.custom_commands/build_installer/build_installer.py` and
`.custom_commands/get_release/get_release.py`).  Pure string manipulation is
translated function-by-function; the effectful boundary (HTTP fetches,
subprocess invocations, the filesystem) is made explicit: scraped pages
arrive as structured values, external process outcomes are parameters, and
filesystem / process effects are returned as explicit state or traces.

Python exceptions are modelled by `PyResult`: a Python function either
returns a value (`ok`) or raises (`raise`).
-/

/-- Outcome of running a piece of Python code: a returned value or a raised
exception (identified by its rendered message). -/
inductive PyResult (α : Type) where
  | ok (val : α)
  | raise (msg : String)
deriving DecidableEq, Repr

namespace PyResult

def bind {α β : Type} : PyResult α → (α → PyResult β) → PyResult β
  | .ok v, f => f v
  | .raise e, _ => .raise e

instance : Monad PyResult where
  pure := .ok
  bind := bind

/-- `true` iff the computation returned normally. -/
def isOk {α : Type} : PyResult α → Bool
  | .ok _ => true
  | .raise _ => false

@[simp] theorem bind_ok {α β : Type} (v : α) (f : α → PyResult β) :
    PyResult.bind (.ok v) f = f v := rfl

@[simp] theorem bind_raise {α β : Type} (e : String) (f : α → PyResult β) :
    PyResult.bind (.raise e) f = .raise e := rfl

end PyResult

/-! ## Python string primitives used by the scripts -/

/-- `str.capitalize()`: first character uppercased, the rest lowercased. -/
def pyCapitalize (s : String) : String :=
  match s.data with
  | [] => ""
  | c :: rest => String.mk (c.toUpper :: rest.map Char.toLower)

/-- `str.lower()`. -/
def pyLower (s : String) : String :=
  String.mk (s.data.map Char.toLower)

/-- `str.replace("-", " ")`: the pattern and the replacement are single
characters, so the replacement is character-wise. -/
def pyReplaceDashSpace (s : String) : String :=
  String.mk (s.data.map fun c => if c = '-' then ' ' else c)

/-- Python slicing `s[start:stop]` with non-negative bounds (out-of-range
bounds clamp, exactly as `List.drop`/`List.take` do). -/
def pySlice (s : String) (start stop : Nat) : String :=
  String.mk ((s.data.drop start).take (stop - start))

/-- Substring search over character lists (helper for the `in` operator). -/
def isSubstrAux (needle : List Char) : List Char → Bool
  | [] => needle.isPrefixOf []
  | c :: rest => needle.isPrefixOf (c :: rest) || isSubstrAux needle rest

/-- The Python expression `needle in haystack` on strings: contiguous
substring containment. -/
def pyIn (needle haystack : String) : Bool :=
  isSubstrAux needle.data haystack.data

/-- `str.strip()`: remove leading and trailing whitespace. -/
def pyStrip (s : String) : String :=
  String.mk (((s.data.dropWhile Char.isWhitespace).reverse.dropWhile
    Char.isWhitespace).reverse)

/-- `int(s)` for the plain-digit strings that occur in scraped build ids and
headers (other literal forms — sign, whitespace, underscores — do not occur
in those tokens); raises `ValueError` otherwise. -/
def pyInt (s : String) : PyResult Nat :=
  if s.data ≠ [] ∧ s.data.all Char.isDigit then
    .ok (s.data.foldl (fun n c => 10 * n + (c.toNat - 48)) 0)
  else
    .raise "ValueError: invalid literal for int() with base 10"

/-- `int(c)` on a one-character string (used on `format1[6]`). -/
def pyInt1 (c : Char) : PyResult Nat :=
  if c.isDigit then .ok (c.toNat - 48)
  else .raise "ValueError: invalid literal for int() with base 10"

/-- `s.split('/')[-1]`: the segment after the last `'/'` (the whole string
when there is no `'/'`; `split` never returns an empty list, so the `[-1]`
index never raises). -/
def pySplitSlashLast (s : String) : String :=
  String.mk ((s.data.reverse.takeWhile (fun c => c ≠ '/')).reverse)

/-- `os.path.basename`: the part after the last `'/'`. -/
def pyBasename (s : String) : String :=
  String.mk ((s.data.reverse.takeWhile (fun c => c ≠ '/')).reverse)

/-- Index of the last occurrence of `c` in `cs`, if any. -/
def lastIndexOf (c : Char) (cs : List Char) : Option Nat :=
  ((List.range cs.length).filter (fun i => cs[i]? = some c)).getLast?

/-- `os.path.splitext(p)[0]` (posixpath): the root is `p[:dotIndex]` for the
last `'.'` that lies in the basename and has a non-dot basename character
strictly before it; otherwise the whole path. -/
def pySplitextRoot (p : String) : String :=
  let cs := p.data
  match lastIndexOf '.' cs with
  | none => p
  | some dotIdx =>
    let start := match lastIndexOf '/' cs with
      | none => 0
      | some i => i + 1
    if start ≤ dotIdx ∧ ((cs.drop start).take (dotIdx - start)).any (fun ch => ch ≠ '.') then
      String.mk (cs.take dotIdx)
    else p

/-! ## `format_buildID` (build_installer.py lines 386–401)

```python
format1 = build_id.capitalize().replace("-", " ")
formatted_buildID = ""
if int(format1[6]) == 0:
    for i in range(len(build_id)):
        if i != 6:
            formatted_buildID = formatted_buildID + format1[i]
if formatted_buildID == "":
    formatted_buildID = format1
return formatted_buildID
```
-/

/-- The display-form derivation.  `format1[6]` raises `IndexError` on a short
id and `int(...)` raises `ValueError` on a non-digit; the copy loop indexes
`format1[i]` for `i < len(build_id)`, which is always in range because
`capitalize` and the single-character `replace` preserve length. -/
def format_buildID (build_id : String) : PyResult String :=
  let format1 := pyReplaceDashSpace (pyCapitalize build_id)
  match format1.data[6]? with
  | none => .raise "IndexError: string index out of range"
  | some c6 =>
    match pyInt1 c6 with
    | .raise e => .raise e
    | .ok n =>
      let formatted :=
        if n = 0 then
          String.mk ((List.range build_id.length).filterMap fun i =>
            if i = 6 then none else format1.data[i]?)
        else ""
      .ok (if formatted = "" then format1 else formatted)

/-! ## Build Locator (`get_build_info`, build_installer.py lines 404–458)

The HTTP fetch and HTML parse are the effectful boundary: the listing
arrives here as the list of scraped `build-NNN` tokens (the result of
`[id.strip() for id in builds_list if 'build' in id]`), and the per-build
Bundle Resolver call is a parameter `resolve` so that the scan logic can be
stated for any resolver behaviour. -/

/-- The list comprehension `[id.strip() for id in builds_list if 'build' in id]`
applied to the lines of the second `<ul>`. -/
def parse_builds_list (lines : List String) : List String :=
  (lines.filter (fun id => pyIn "build" id)).map pyStrip

/-- ```python
if int(builds_list[-1][6:9]) > int(builds_list[0][6:9]):
    builds_list = builds_list[::-1]
```
`builds_list[-1]` / `builds_list[0]` raise `IndexError` on an empty list;
the `int` calls raise `ValueError` on malformed ids (`[-1]` is evaluated
first). -/
def arrange_builds (builds_list : List String) : PyResult (List String) :=
  match builds_list.head?, builds_list.getLast? with
  | some first, some last =>
    (do
      let nLast ← pyInt (pySlice last 6 9)
      let nFirst ← pyInt (pySlice first 6 9)
      pure (if nFirst < nLast then builds_list.reverse else builds_list))
  | _, _ => .raise "IndexError: list index out of range"

/-- Python truthiness of the resolver's return value: `None` and the empty
string are falsy, any other string is truthy. -/
def truthyName : Option String → Bool
  | none => false
  | some s => s ≠ ""

/-- ```python
for build_page in builds_list:
    bundle_name = get_bundle_name(...)
    latest_build = build_page
    if bundle_name:
        break
return latest_build, bundle_name
```
On an empty list the loop never assigns `latest_build`, so the `return`
raises `UnboundLocalError`; an exception from the resolver propagates. -/
def scan_builds (resolve : String → PyResult (Option String)) :
    List String → PyResult (String × Option String)
  | [] => .raise "UnboundLocalError: local variable referenced before assignment"
  | b :: rest =>
    match resolve b with
    | .raise e => .raise e
    | .ok bundle_name =>
      if truthyName bundle_name then .ok (b, bundle_name)
      else
        match rest with
        | [] => .ok (b, bundle_name)
        | _ :: _ => scan_builds resolve rest

/-- `get_build_info` from the arranged-listing step onward: arrange the
scraped listing, then scan it front-to-back with the Bundle Resolver. -/
def get_build_info (builds_list : List String)
    (resolve : String → PyResult (Option String)) :
    PyResult (String × Option String) := do
  let arranged ← arrange_builds builds_list
  scan_builds resolve arranged

/-- Numeric suffix `int(b[6:9])` of a well-formed `build-NNN` token (`0` as a
placeholder on tokens whose slice does not parse; every claim that uses this
assumes the slice parses). -/
def buildNum (b : String) : Nat :=
  match pyInt (pySlice b 6 9) with
  | .ok n => n
  | .raise _ => 0

/-- The listing is strictly ascending by numeric suffix. -/
def ascBySuffix (l : List String) : Prop :=
  l.Pairwise (fun x y => buildNum x < buildNum y)

/-- The listing is strictly descending by numeric suffix (the order in which
the spec says builds are resolved). -/
def descBySuffix (l : List String) : Prop :=
  l.Pairwise (fun x y => buildNum y < buildNum x)

instance (l : List String) : Decidable (ascBySuffix l) :=
  List.instDecidablePairwise l

instance (l : List String) : Decidable (descBySuffix l) :=
  List.instDecidablePairwise l

/-! ## Bundle Resolver (`get_bundle_name`, build_installer.py lines 461–523)

A fetched per-build catalog page is modelled structurally: the sequence of
`<h3>` section headers, each paired with the `<a>` links of the `<ul>` that
is its next sibling.  A link carries its text (what the platform filter
inspects) and its `href`. -/

/-- An `<a>` tag inside a section's `<ul>`. -/
structure DLink where
  text : String
  href : String
deriving DecidableEq, Repr

/-- An `<h3>` header together with the links of its next-sibling `<ul>`. -/
structure PageSection where
  header : String
  links : List DLink
deriving DecidableEq, Repr

/-- The header text searched for:
`header = bundle_type.capitalize()`, overridden to `"Academic"` for
`desres`, then matched against `f'{header} Installers'`. -/
def bundle_header (bundle_type : String) : String :=
  (if pyLower bundle_type = "desres" then "Academic" else pyCapitalize bundle_type)
    ++ " Installers"

/-- The link-text filter: the platform marker, overridden to `"DESRES"` for
`desres` bundles. -/
def bundle_filter (bundle_type platform : String) : String :=
  if pyLower bundle_type = "desres" then "DESRES" else platform

/-- `soup.find('h3', text=f'{header} Installers')` followed by
`.find_next_sibling()`: the first section whose header matches. -/
def find_section (page : List PageSection) (bundle_type : String) :
    Option PageSection :=
  page.find? (fun sec => sec.header = bundle_header bundle_type)

/-- `installers.find_all(lambda tag: tag.name == 'a' and filter_ in tag.text)`. -/
def matching_installers (sec : PageSection) (bundle_type platform : String) :
    List DLink :=
  sec.links.filter (fun l => pyIn (bundle_filter bundle_type platform) l.text)

/-- `get_bundle_name` after the page fetch.  A missing header makes
`bundle_type_header` `None`, so `.find_next_sibling()` raises
`AttributeError`, which the `except` turns into `return None`; an empty
filter result is `return None`; on macOS without `-knime` for a non-academic
bundle the code selects `installers[1]`, which raises `IndexError` when only
one link matched.  The final `if installer:` is bs4 tag truthiness
(non-empty contents), i.e. the link has text. -/
def get_bundle_name (page : List PageSection) (bundle_type platform : String)
    (knime : Bool) : PyResult (Option String) :=
  match find_section page bundle_type with
  | none => .ok none
  | some sec =>
    match matching_installers sec bundle_type platform with
    | [] => .ok none
    | first :: rest =>
      let sel : PyResult DLink :=
        if platform = "MacOSX" ∧ knime = false ∧ bundle_type ≠ "academic" then
          match rest with
          | [] => .raise "IndexError: list index out of range"
          | second :: _ => .ok second
        else .ok first
      match sel with
      | .raise e => .raise e
      | .ok installer =>
        .ok (some (if installer.text ≠ "" then pySplitSlashLast installer.href else ""))

/-! ## Release oracle (`get_current_release`, build_installer.py lines 278–341)

The authenticated calendar query is the effectful boundary: `items` is the
list of event summaries returned for the 15-week window with
`q="* Release Target"`.  The source indexes `events_result["items"][0]`
*before* the `len(events_result["items"]) == 0` check, so the check is kept
here in source order (inside the non-empty branch, where it is dead). -/

/-- Python value returned by `get_current_release`: the release string, or
the literal `False` used to signal that no release target was found. -/
inductive ReleaseResult where
  | release (r : String)
  | noRelease
deriving DecidableEq, Repr

/-- ```python
current_release = "20" + events_result["items"][0]["summary"][:4]
if len(events_result["items"]) == 0:
    return False
return current_release
``` -/
def get_current_release (items : List String) : PyResult ReleaseResult :=
  match items with
  | [] => .raise "IndexError: list index out of range"
  | summary :: rest =>
    let current_release := "20" ++ pySlice summary 0 4
    if (summary :: rest).length = 0 then .ok .noRelease
    else .ok (.release current_release)

/-! ## Local-installation decision in `main` (build_installer.py lines 789–813)

The filesystem reads are the effectful boundary: `local_exists` is
`os.path.isdir(local_install_dir)` and `local_version` the contents of
`version.txt`.  The side-effecting continuation of `main` is returned as the
ordered list of workflow steps it would run. -/

/-- The externally visible stages `main` runs after the version check. -/
inductive WorkflowStep where
  | uninstallStep
  | downloadStep
  | installStep
deriving DecidableEq, Repr

/-- ```python
if os.path.isdir(local_install_dir):
    local_version = get_local_build_version(local_install_dir)
    if release and format_buildID(latest_build) in local_version:
        return
    else:
        uninstall(release, local_install_dir)
download_file(download_url, bundle_path)
if download_only:
    return
install_schrodinger_bundle(...); install_schrodinger_hosts(...); install_license_stub(...)
```
(`install_schrodinger_bundle`, `install_schrodinger_hosts` and
`install_license_stub` are collapsed into a single `installStep`; Python
string truthiness of `release` is non-emptiness.) -/
def main_workflow (local_exists : Bool) (local_version release latest_build : String)
    (download_only : Bool) : PyResult (List WorkflowStep) :=
  match
    (if local_exists then
      if release ≠ "" then
        match format_buildID latest_build with
        | .raise e => .raise e
        | .ok disp =>
          if pyIn disp local_version then .ok none
          else .ok (some [WorkflowStep.uninstallStep])
      else .ok (some [WorkflowStep.uninstallStep])
    else .ok (some ([] : List WorkflowStep)) : PyResult (Option (List WorkflowStep)))
  with
  | .raise e => .raise e
  | .ok none => .ok []
  | .ok (some pre) =>
    .ok (pre ++ [WorkflowStep.downloadStep]
            ++ if download_only then [] else [WorkflowStep.installStep])

/-- The three states of the Local Installation State Machine, as named by
the spec (§4.4). -/
inductive InstallState where
  | Absent
  | UpToDate
  | Stale
deriving DecidableEq, Repr

/-- Modelled from the spec (§4.4 transition function), for comparison with
the code: if the path does not exist → `Absent`; else if the desired build's
display form is a substring of the manifest contents → `UpToDate`; else →
`Stale`. -/
def spec_local_state (path_exists : Bool) (manifest display_form : String) :
    InstallState :=
  if !path_exists then .Absent
  else if pyIn display_form manifest then .UpToDate
  else .Stale

/-- The step list the spec prescribes for each state (§4.4):
`Absent` → download + install, `UpToDate` → nothing further,
`Stale` → uninstall, then download + install. -/
def spec_steps : InstallState → List WorkflowStep
  | .Absent => [.downloadStep, .installStep]
  | .UpToDate => []
  | .Stale => [.uninstallStep, .downloadStep, .installStep]

/-! ## Download Stage (`download_file`, build_installer.py lines 238–275)

State is the content of the target path (`none` = no file).  The HTTP
response arrives as its status, its `Content-Length` header (if any) and the
list of body chunks. -/

/-- ```python
if os.path.exists(target):
    os.remove(target)
resp = requests.get(url, stream=True)
resp.raise_for_status()
total_size = int(resp.headers["Content-Length"]) / 1024 / 1024
with open(target, mode='wb') as file_handle:
    for chunk in resp.iter_content(...):
        if not chunk:
            continue
        file_handle.write(chunk)
```
Returned: the final content of the target path, and the normal/raised
outcome.  `raise_for_status` raises `HTTPError` for 4xx/5xx statuses; a
missing `Content-Length` raises `KeyError` before the file is opened. -/
def download_file (pre : Option String) (status : Nat)
    (content_length : Option String) (chunks : List String) :
    Option String × PyResult Unit :=
  let fs0 : Option String := if pre.isSome then none else pre
  if 400 ≤ status ∧ status < 600 then (fs0, .raise "HTTPError")
  else
    match content_length with
    | none => (fs0, .raise "KeyError: Content-Length")
    | some cl =>
      match pyInt cl with
      | .raise e => (fs0, .raise e)
      | .ok _ => (some (String.join (chunks.filter (fun c => c ≠ ""))), .ok ())

/-! ## Disk-image mount (`mount_dmg`, lines 694–720, and the darwin branch of
`extract_bundle`, lines 363–369)

External processes are recorded in an ordered trace; the outcome of the
`xar` extraction is a parameter so the unwind behaviour can be stated for
both its exit paths. -/

/-- External commands run by the darwin extraction path. -/
inductive SysCmd where
  | attach (dmg : String)
  | xar (dest pkg : String)
  | detach (mount_point : String)
deriving DecidableEq, Repr

/-- A `\w` or `\d` character of the mount-point regex (`\d ⊆ \w`). -/
def isWordChar (c : Char) : Bool :=
  c.isAlphanum || c = '_'

/-- `re.search(r'/Volumes/dmg\.[\d\w]+', output)`: earliest position where
the literal prefix is followed by at least one word character; the match
extends greedily. -/
def find_dmg_match : List Char → Option (List Char)
  | [] => none
  | c :: rest =>
    if ("/Volumes/dmg.".data).isPrefixOf (c :: rest) then
      let after := (c :: rest).drop ("/Volumes/dmg.".data.length)
      let ws := after.takeWhile isWordChar
      if ws ≠ [] then some ("/Volumes/dmg.".data ++ ws)
      else find_dmg_match rest
    else find_dmg_match rest

/-- Mount point parsed from the `hdiutil attach` output. -/
def parse_mount_point (output : String) : Option String :=
  (find_dmg_match output.data).map String.mk

/-- The `with mount_dmg(bundle_path) as mount_point:` block.  `hdiutil
attach` runs first; if its output has no parsable mount point the
`RuntimeError` is raised with nothing further run.  Otherwise the body runs
and — because the generator yields inside `try`/`finally` — `hdiutil detach`
runs on both the normal and the raising exit of the body, after which the
body's outcome propagates. -/
def mount_dmg_with (dmg_path attach_output : String)
    (body : String → List SysCmd × PyResult Unit) :
    List SysCmd × PyResult Unit :=
  match parse_mount_point attach_output with
  | none => ([SysCmd.attach dmg_path], .raise "RuntimeError: Could not parse mount point")
  | some mount_point =>
    let r := body mount_point
    (SysCmd.attach dmg_path :: r.1 ++ [SysCmd.detach mount_point], r.2)

/-- The darwin branch of `extract_bundle`:
```python
with mount_dmg(bundle_path) as mount_point:
    bundle_name = os.path.basename(bundle_path)
    pkg_path = os.path.join(mount_point, os.path.splitext(bundle_name)[0] + '.pkg')
    subprocess.check_call(['xar', '-C', destination, '-xvf', pkg_path])
```
(`os.path.join` of the absolute mount point and a relative name is their
`'/'`-separated concatenation; `xar_exit` is the outcome of the `xar`
process.) -/
def extract_bundle_darwin (bundle_path destination attach_output : String)
    (xar_exit : String → PyResult Unit) : List SysCmd × PyResult Unit :=
  mount_dmg_with bundle_path attach_output (fun mount_point =>
    let pkg_path := mount_point ++ "/" ++ (pySplitextRoot (pyBasename bundle_path) ++ ".pkg")
    ([SysCmd.xar destination pkg_path], xar_exit pkg_path))

/-! ## Shared character lemmas -/

lemma toLower_of_isDigit (c : Char) (h : c.isDigit = true) : c.toLower = c := by
  simp only [Char.isDigit, Bool.and_eq_true, decide_eq_true_eq] at h
  have h57 : c.toNat ≤ 57 := UInt32.toNat_le_of_le (by decide) h.2
  simp only [Char.toLower]
  rw [if_neg]
  omega

lemma ne_dash_of_isDigit (c : Char) (h : c.isDigit = true) : c ≠ '-' := by
  intro he
  subst he
  exact absurd h (by decide)

lemma char_eq_of_toNat_eq {a b : Char} (h : a.toNat = b.toNat) : a = b :=
  Char.eq_of_val_eq (UInt32.ext h)

lemma toNat_ge_48_of_isDigit (c : Char) (h : c.isDigit = true) : 48 ≤ c.toNat := by
  simp only [Char.isDigit, Bool.and_eq_true, decide_eq_true_eq] at h
  exact UInt32.le_toNat_of_le (by decide) h.1

/-! ## Claim C3: display-form derivation -/

/-- C3 counterexample: the claim says `build-003` renders as `Build 3`, but
the code removes only the single character at index 6 of `Build 003`, so it
renders as `Build 03`. -/
theorem format_buildID_claim_counterexample :
    format_buildID "build-003" = .ok "Build 03" ∧
      format_buildID "build-003" ≠ .ok "Build 3" := by
  constructor <;> decide

/-- C3 (amended): for a `build-NNN` identifier the derivation strips exactly
one leading zero — the digit at index 6 is removed when it is `0`, so
`build-0NN` renders as `Build NN` (leaving `build-00N` as `Build 0N`), and a
nonzero-leading id renders unchanged as `Build NNN`. -/
theorem format_buildID_one_zero (a b c : Char) (ha : a.isDigit = true)
    (hb : b.isDigit = true) (hc : c.isDigit = true) :
    format_buildID (String.mk ['b','u','i','l','d','-', a, b, c]) =
      .ok (String.mk (if a = '0'
        then ['B','u','i','l','d',' ', b, c]
        else ['B','u','i','l','d',' ', a, b, c])) := by
  have hA := toLower_of_isDigit a ha
  have hB := toLower_of_isDigit b hb
  have hC := toLower_of_isDigit c hc
  have hAd := ne_dash_of_isDigit a ha
  have hBd := ne_dash_of_isDigit b hb
  have hCd := ne_dash_of_isDigit c hc
  have hfmt : pyReplaceDashSpace (pyCapitalize (String.mk ['b','u','i','l','d','-', a, b, c]))
      = String.mk ['B','u','i','l','d',' ', a, b, c] := by
    simp only [pyCapitalize, pyReplaceDashSpace, List.map_cons, List.map_nil, hA, hB, hC]
    norm_num [hAd, hBd, hCd,
      show 'b'.toUpper = 'B' from by decide, show 'u'.toLower = 'u' from by decide,
      show 'i'.toLower = 'i' from by decide, show 'l'.toLower = 'l' from by decide,
      show 'd'.toLower = 'd' from by decide, show '-'.toLower = '-' from by decide]
    rfl
  rw [format_buildID]
  simp only [hfmt]
  have h6 : (String.mk ['B','u','i','l','d',' ', a, b, c]).data[6]? = some a := rfl
  rw [h6]
  simp only [pyInt1, ha, if_pos]
  have h48 := toNat_ge_48_of_isDigit a ha
  by_cases h0 : a = '0'
  · subst h0
    norm_num
    rfl
  · have hn : ¬ (a.toNat - 48 = 0) := by
      intro hz
      have hz0 : '0'.toNat = 48 := by decide
      exact h0 (char_eq_of_toNat_eq (by omega))
    rw [if_neg hn]
    norm_num [h0]

/-- C3 witness: the amended theorem at `build-042` (one zero stripped) and
`build-142` (unchanged). -/
theorem format_buildID_one_zero_witness :
    ('0'.isDigit = true ∧
      format_buildID (String.mk ['b','u','i','l','d','-','0','4','2']) =
        .ok (String.mk ['B','u','i','l','d',' ','4','2'])) ∧
    ('1'.isDigit = true ∧
      format_buildID (String.mk ['b','u','i','l','d','-','1','4','2']) =
        .ok (String.mk ['B','u','i','l','d',' ','1','4','2'])) := by
  refine ⟨⟨by decide, ?_⟩, ⟨by decide, ?_⟩⟩
  · have h := format_buildID_one_zero '0' '4' '2' (by decide) (by decide) (by decide)
    simpa using h
  · have h := format_buildID_one_zero '1' '4' '2' (by decide) (by decide) (by decide)
    simpa using h

/-! ## Shared `PyResult` lemmas -/

@[simp] theorem PyResult.ok_bind {α β : Type} (v : α) (f : α → PyResult β) :
    ((.ok v : PyResult α) >>= f) = f v := rfl

@[simp] theorem PyResult.raise_bind {α β : Type} (e : String) (f : α → PyResult β) :
    ((.raise e : PyResult α) >>= f) = .raise e := rfl

@[simp] theorem PyResult.pure_eq {α : Type} (v : α) : (pure v : PyResult α) = .ok v := rfl

lemma PyResult.isOk_iff {α : Type} (r : PyResult α) : r.isOk = true ↔ ∃ v, r = .ok v := by
  cases r <;> simp [PyResult.isOk]

/-! ## Claim C1: the Build Locator's arrangement of the catalog listing -/

/-- C1 counterexample: the conditional reverse compares only the first and
the last entry, so a mixed-order listing is *not* sorted descending — it is
merely reversed, here into `003, 005, 002`. -/
theorem arrange_builds_mixed_counterexample :
    arrange_builds ["build-002", "build-005", "build-003"] =
      .ok ["build-003", "build-005", "build-002"] ∧
    ¬ descBySuffix ["build-003", "build-005", "build-002"] := by
  constructor
  · decide
  · decide

/-- C1 (amended): when the raw catalog listing is monotone by numeric suffix
— strictly ascending or strictly descending — the Build Locator's
conditional reverse yields a strictly descending listing, and the scan then
resolves builds in exactly that descending order.  (The defensive full sort
claim fails for mixed orders, see the counterexample.) -/
theorem arrange_builds_monotone_desc (builds_list : List String)
    (hne : builds_list ≠ [])
    (hparse : ∀ b ∈ builds_list, (pyInt (pySlice b 6 9)).isOk = true)
    (hmono : ascBySuffix builds_list ∨ descBySuffix builds_list) :
    ∃ arranged, arrange_builds builds_list = .ok arranged ∧ descBySuffix arranged ∧
      ∀ resolve, get_build_info builds_list resolve = scan_builds resolve arranged := by
  match builds_list, hne with
  | f :: t, _ =>
  have hLne : (f :: t) ≠ [] := List.cons_ne_nil f t
  have hgl : (f :: t).getLast? = some ((f :: t).getLast hLne) := List.getLast?_eq_getLast _ hLne
  obtain ⟨nF, hnF⟩ := (PyResult.isOk_iff _).mp (hparse f (by simp))
  obtain ⟨nL, hnL⟩ := (PyResult.isOk_iff _).mp
    (hparse ((f :: t).getLast hLne) (List.getLast_mem hLne))
  have hbF : buildNum f = nF := by simp [buildNum, hnF]
  have hbL : buildNum ((f :: t).getLast hLne) = nL := by simp [buildNum, hnL]
  have harr : arrange_builds (f :: t) =
      .ok (if nF < nL then (f :: t).reverse else (f :: t)) := by
    simp only [arrange_builds, List.head?_cons, hgl, hnF, hnL, PyResult.ok_bind,
      PyResult.pure_eq]
  have hscan : ∀ arranged, arrange_builds (f :: t) = .ok arranged →
      ∀ resolve, get_build_info (f :: t) resolve = scan_builds resolve arranged := by
    intro arranged ha resolve
    simp [get_build_info, ha]
  rcases hmono with hasc | hdesc
  · match t with
    | [] =>
      have hfl : (([f] : List String).getLast hLne) = f := rfl
      have : ¬ nF < nL := by
        rw [hfl] at hbL
        omega
      rw [if_neg this] at harr
      exact ⟨[f], harr, by simp [descBySuffix], hscan _ harr⟩
    | b :: t' =>
      have hmem : ((f :: b :: t').getLast hLne) ∈ b :: t' := by
        rw [List.getLast_cons (List.cons_ne_nil b t')]
        exact List.getLast_mem _
      have hlt : nF < nL := by
        rw [ascBySuffix, List.pairwise_cons] at hasc
        have := hasc.1 _ hmem
        omega
      rw [if_pos hlt] at harr
      refine ⟨(f :: b :: t').reverse, harr, ?_, hscan _ harr⟩
      exact List.pairwise_reverse.mpr hasc
  · have hnlt : ¬ nF < nL := by
      match t with
      | [] =>
        have hfl : (([f] : List String).getLast hLne) = f := rfl
        rw [hfl] at hbL
        omega
      | b :: t' =>
        have hmem : ((f :: b :: t').getLast hLne) ∈ b :: t' := by
          rw [List.getLast_cons (List.cons_ne_nil b t')]
          exact List.getLast_mem _
        rw [descBySuffix, List.pairwise_cons] at hdesc
        have := hdesc.1 _ hmem
        omega
    rw [if_neg hnlt] at harr
    exact ⟨f :: t, harr, hdesc, hscan _ harr⟩

/-- C1 witness: the amended theorem on a concrete ascending listing. -/
theorem arrange_builds_monotone_desc_witness :
    (["build-001", "build-002", "build-003"] ≠ ([] : List String)) ∧
    (∃ arranged, arrange_builds ["build-001", "build-002", "build-003"] = .ok arranged ∧
      descBySuffix arranged ∧
      ∀ resolve, get_build_info ["build-001", "build-002", "build-003"] resolve =
        scan_builds resolve arranged) := by
  constructor
  · decide
  · exact arrange_builds_monotone_desc _ (by decide) (by decide) (Or.inl (by decide))

/-! ## Claim C2: exhausted scan reports `None`, it does not raise -/

/-- Unfolding equation for `scan_builds` on a non-empty listing. -/
lemma scan_builds_cons (resolve : String → PyResult (Option String))
    (b : String) (rest : List String) :
    scan_builds resolve (b :: rest) =
      match resolve b with
      | .raise e => .raise e
      | .ok bundle_name =>
        if truthyName bundle_name then .ok (b, bundle_name)
        else
          match rest with
          | [] => .ok (b, bundle_name)
          | _ :: _ => scan_builds resolve rest := rfl

/-- The arrangement step succeeds on any non-empty listing of well-formed
ids, producing either the listing itself or its reversal. -/
lemma arrange_builds_perm_ok (builds_list : List String)
    (hne : builds_list ≠ [])
    (hparse : ∀ b ∈ builds_list, (pyInt (pySlice b 6 9)).isOk = true) :
    ∃ arranged, arrange_builds builds_list = .ok arranged ∧
      (arranged = builds_list ∨ arranged = builds_list.reverse) := by
  match builds_list, hne with
  | f :: t, _ =>
  have hLne : (f :: t) ≠ [] := List.cons_ne_nil f t
  have hgl : (f :: t).getLast? = some ((f :: t).getLast hLne) := List.getLast?_eq_getLast _ hLne
  obtain ⟨nF, hnF⟩ := (PyResult.isOk_iff _).mp (hparse f (by simp))
  obtain ⟨nL, hnL⟩ := (PyResult.isOk_iff _).mp
    (hparse ((f :: t).getLast hLne) (List.getLast_mem hLne))
  refine ⟨if nF < nL then (f :: t).reverse else (f :: t), ?_, ?_⟩
  · simp only [arrange_builds, List.head?_cons, hgl, hnF, hnL, PyResult.ok_bind,
      PyResult.pure_eq]
  · by_cases h : nF < nL
    · simp [h]
    · simp [h]

/-- A scan in which every build resolves to `None` ends by returning the
last `(build, None)` pair — no exception is raised. -/
lemma scan_builds_all_none (resolve : String → PyResult (Option String))
    (l : List String) (hne : l ≠ [])
    (hall : ∀ b ∈ l, resolve b = .ok none) :
    ∃ b ∈ l, scan_builds resolve l = .ok (b, none) := by
  induction l with
  | nil => exact absurd rfl hne
  | cons b rest ih =>
    have hb := hall b (by simp)
    match rest with
    | [] =>
      refine ⟨b, by simp, ?_⟩
      rw [scan_builds_cons, hb]
      simp [truthyName]
    | c :: t =>
      obtain ⟨b', hb', hs⟩ := ih (by simp) (fun x hx => hall x (by simp [hx]))
      refine ⟨b', by simp [hb'], ?_⟩
      rw [scan_builds_cons, hb]
      simpa [truthyName] using hs

/-- C2: when every build of a (non-empty, well-formed) listing lacks the
wanted bundle — the Bundle Resolver answers `None` throughout — the locate
operation *returns* `(some build, None)` to its caller; the `None` in the
bundle position is the `NotFound` report, and no exception is raised. -/
theorem get_build_info_exhausted (builds_list : List String)
    (resolve : String → PyResult (Option String))
    (hne : builds_list ≠ [])
    (hparse : ∀ b ∈ builds_list, (pyInt (pySlice b 6 9)).isOk = true)
    (hall : ∀ b ∈ builds_list, resolve b = .ok none) :
    ∃ b ∈ builds_list, get_build_info builds_list resolve = .ok (b, none) := by
  obtain ⟨arranged, harr, hperm⟩ := arrange_builds_perm_ok builds_list hne hparse
  have hmem : ∀ x, x ∈ arranged ↔ x ∈ builds_list := by
    rcases hperm with rfl | rfl
    · intro x; rfl
    · intro x; exact List.mem_reverse
  have hne' : arranged ≠ [] := by
    rcases hperm with rfl | rfl
    · exact hne
    · simpa using hne
  obtain ⟨b, hbmem, hs⟩ := scan_builds_all_none resolve arranged hne'
    (fun x hx => hall x ((hmem x).mp hx))
  exact ⟨b, (hmem b).mp hbmem, by simp [get_build_info, harr, hs]⟩

/-- C2 witness: a two-build release in which no build has the bundle. -/
theorem get_build_info_exhausted_witness :
    (∀ b ∈ ["build-001", "build-002"], (pyInt (pySlice b 6 9)).isOk = true) ∧
    ∃ b ∈ ["build-001", "build-002"],
      get_build_info ["build-001", "build-002"] (fun _ => .ok none) = .ok (b, none) :=
  ⟨by decide, get_build_info_exhausted _ _ (by decide) (by decide) (fun _ _ => rfl)⟩

/-! ## Claim C4: the local-installation three-state decision -/

/-- C4: with a non-empty release (always the case past the URL join in
`main`) and a well-formed desired build id, the steps `main` runs are fully
determined by the spec's three-state classification: `Absent` → download +
install and no uninstall, `UpToDate` → nothing further, `Stale` → uninstall
before download + install. -/
theorem main_workflow_matches_spec_states (local_exists : Bool)
    (local_version release latest_build disp : String)
    (hrel : release ≠ "")
    (hfmt : format_buildID latest_build = .ok disp) :
    main_workflow local_exists local_version release latest_build false =
      .ok (spec_steps (spec_local_state local_exists local_version disp)) := by
  cases local_exists
  · simp [main_workflow, spec_local_state, spec_steps]
  · by_cases hin : pyIn disp local_version = true
    · simp [main_workflow, hrel, hfmt, hin, spec_local_state, spec_steps]
    · simp [main_workflow, hrel, hfmt, hin, spec_local_state, spec_steps]

/-- C4 witness: an up-to-date manifest (`Build 42` appears) yields no
further steps; evaluating the same decision at an absent path and a stale
manifest is covered by the theorem's case analysis. -/
theorem main_workflow_matches_spec_states_witness :
    (("2024-2" : String) ≠ "" ∧ format_buildID "build-042" = .ok "Build 42") ∧
    main_workflow true "Schrodinger Suite 2024-2, Build 42" "2024-2" "build-042" false =
      .ok (spec_steps (spec_local_state true "Schrodinger Suite 2024-2, Build 42" "Build 42")) :=
  ⟨⟨by decide, by decide⟩,
    main_workflow_matches_spec_states true "Schrodinger Suite 2024-2, Build 42"
      "2024-2" "build-042" "Build 42" (by decide) (by decide)⟩

/-! ## Claim C5: the release oracle on an empty 15-week window -/

/-- C5: on a window with no release-target events the code raises
`IndexError` — `events_result["items"][0]` is evaluated before the
`len(events_result["items"]) == 0` check, so the `return False`
(`NoReleaseFound`) branch the code itself contains is unreachable. -/
theorem get_current_release_empty_raises :
    get_current_release [] = .raise "IndexError: list index out of range" := rfl

/-! ## Claim C6: the Bundle Resolver returns `None`, it does not raise -/

/-- C6: for a fetchable build page the resolver returns `None` (not an
exception) both when no section header matches the requested bundle type
and when the section exists but zero links pass the platform filter. -/
theorem get_bundle_name_returns_none_on_missing (page : List PageSection)
    (bundle_type platform : String) (knime : Bool) :
    (find_section page bundle_type = none →
      get_bundle_name page bundle_type platform knime = .ok none) ∧
    (∀ sec, find_section page bundle_type = some sec →
      matching_installers sec bundle_type platform = [] →
      get_bundle_name page bundle_type platform knime = .ok none) := by
  constructor
  · intro h
    simp [get_bundle_name, h]
  · intro sec hsec hempty
    simp [get_bundle_name, hsec, hempty]

/-- C6 witness: a page without the section, and a page whose section has no
matching links. -/
theorem get_bundle_name_returns_none_on_missing_witness :
    get_bundle_name [] "general" "Linux" false = .ok none ∧
    get_bundle_name [⟨"General Installers", []⟩] "general" "Linux" false = .ok none :=
  ⟨(get_bundle_name_returns_none_on_missing [] "general" "Linux" false).1 (by decide),
   (get_bundle_name_returns_none_on_missing [⟨"General Installers", []⟩] "general"
      "Linux" false).2 ⟨"General Installers", []⟩ (by decide) (by decide)⟩

/-! ## Claim C7: macOS without `-knime`, non-academic: second link wins -/

/-- An empty haystack contains no non-empty needle. -/
lemma pyIn_empty_haystack (needle : String) (hne : needle.data ≠ []) :
    pyIn needle "" = false := by
  match hn : needle.data, hne with
  | c :: cs, _ =>
  rw [pyIn, hn]
  rfl

/-- C7: with platform `MacOSX`, `knime = false`, a non-academic bundle type
and at least two links passing the filter, the resolver returns the file
name from the *second* matching link. -/
theorem get_bundle_name_picks_second (page : List PageSection)
    (bundle_type : String) (sec : PageSection)
    (first second : DLink) (rest : List DLink)
    (hsec : find_section page bundle_type = some sec)
    (hmatch : matching_installers sec bundle_type "MacOSX" = first :: second :: rest)
    (hac : bundle_type ≠ "academic") :
    get_bundle_name page bundle_type "MacOSX" false =
      .ok (some (pySplitSlashLast second.href)) := by
  have hsecondmem : second ∈ matching_installers sec bundle_type "MacOSX" := by
    rw [hmatch]; simp
  have hpred : pyIn (bundle_filter bundle_type "MacOSX") second.text = true := by
    have h' : second ∈ sec.links.filter
        (fun l => pyIn (bundle_filter bundle_type "MacOSX") l.text) := hsecondmem
    simpa using List.of_mem_filter h'
  have hfne : (bundle_filter bundle_type "MacOSX").data ≠ [] := by
    rw [bundle_filter]; split <;> decide
  have htext : second.text ≠ "" := by
    intro h
    rw [h, pyIn_empty_haystack _ hfne] at hpred
    exact Bool.false_ne_true hpred
  simp [get_bundle_name, hsec, hmatch, hac, htext]

/-- C7 witness: a page with a with-KNIME and a without-KNIME macOS link;
the second one is returned. -/
theorem get_bundle_name_picks_second_witness :
    get_bundle_name
      [⟨"General Installers",
        [⟨"Schrodinger Suites for MacOSX (with KNIME)", "NB/2024-2/build-042/first.dmg"⟩,
         ⟨"Schrodinger Suites for MacOSX", "NB/2024-2/build-042/second.dmg"⟩]⟩]
      "general" "MacOSX" false = .ok (some "second.dmg") := by
  have h2 : pySplitSlashLast "NB/2024-2/build-042/second.dmg" = "second.dmg" := by decide
  rw [← h2]
  exact get_bundle_name_picks_second _ "general"
    ⟨"General Installers",
      [⟨"Schrodinger Suites for MacOSX (with KNIME)", "NB/2024-2/build-042/first.dmg"⟩,
       ⟨"Schrodinger Suites for MacOSX", "NB/2024-2/build-042/second.dmg"⟩]⟩
    ⟨"Schrodinger Suites for MacOSX (with KNIME)", "NB/2024-2/build-042/first.dmg"⟩
    ⟨"Schrodinger Suites for MacOSX", "NB/2024-2/build-042/second.dmg"⟩ []
    (by decide) (by decide) (by decide)

/-! ## Claim C9: single matching link on macOS raises `IndexError` -/

/-- C9: with platform `MacOSX`, `knime = false` and a non-academic bundle
type, if exactly one link passes the filter, `installers[1]` raises
`IndexError` instead of returning the single link or `None`. -/
theorem get_bundle_name_single_link_index_error (page : List PageSection)
    (bundle_type : String) (sec : PageSection) (only : DLink)
    (hsec : find_section page bundle_type = some sec)
    (hmatch : matching_installers sec bundle_type "MacOSX" = [only])
    (hac : bundle_type ≠ "academic") :
    get_bundle_name page bundle_type "MacOSX" false =
      .raise "IndexError: list index out of range" := by
  simp [get_bundle_name, hsec, hmatch, hac]

/-- C9 witness: a page whose section has exactly one macOS link. -/
theorem get_bundle_name_single_link_index_error_witness :
    get_bundle_name
      [⟨"General Installers",
        [⟨"Schrodinger Suites for MacOSX", "NB/2024-2/build-042/only.dmg"⟩]⟩]
      "general" "MacOSX" false = .raise "IndexError: list index out of range" :=
  get_bundle_name_single_link_index_error _ "general"
    ⟨"General Installers",
      [⟨"Schrodinger Suites for MacOSX", "NB/2024-2/build-042/only.dmg"⟩]⟩
    ⟨"Schrodinger Suites for MacOSX", "NB/2024-2/build-042/only.dmg"⟩
    (by decide) (by decide) (by decide)

/-! ## Claim C8: the scoped mount always unmounts -/

/-- C8: once the mount point parses, the command trace of the darwin
extraction is exactly attach–xar–detach and the `xar` outcome (normal or
raised) is what propagates: `hdiutil detach` runs on every exit path of the
scoped mount, in particular after a raising extraction and before its
exception reaches the caller. -/
theorem extract_bundle_darwin_always_detaches
    (bundle_path destination attach_output mp : String)
    (xar_exit : String → PyResult Unit)
    (hmp : parse_mount_point attach_output = some mp) :
    (extract_bundle_darwin bundle_path destination attach_output xar_exit).1 =
      [SysCmd.attach bundle_path,
       SysCmd.xar destination (mp ++ "/" ++ (pySplitextRoot (pyBasename bundle_path) ++ ".pkg")),
       SysCmd.detach mp] ∧
    (extract_bundle_darwin bundle_path destination attach_output xar_exit).2 =
      xar_exit (mp ++ "/" ++ (pySplitextRoot (pyBasename bundle_path) ++ ".pkg")) := by
  constructor <;> simp [extract_bundle_darwin, mount_dmg_with, hmp]

/-- C8 witness: a raising `xar` — the detach still appears in the trace,
after the extraction command, and the exception is what propagates. -/
theorem extract_bundle_darwin_always_detaches_witness :
    (parse_mount_point "/dev/disk2 /Volumes/dmg.Ab3X\n" = some "/Volumes/dmg.Ab3X") ∧
    (extract_bundle_darwin "/Users/u/Downloads/bundle-042.dmg" "/tmp/install_tmpdir"
        "/dev/disk2 /Volumes/dmg.Ab3X\n" (fun _ => .raise "CalledProcessError")).1 =
      [SysCmd.attach "/Users/u/Downloads/bundle-042.dmg",
       SysCmd.xar "/tmp/install_tmpdir"
         ("/Volumes/dmg.Ab3X" ++ "/" ++
           (pySplitextRoot (pyBasename "/Users/u/Downloads/bundle-042.dmg") ++ ".pkg")),
       SysCmd.detach "/Volumes/dmg.Ab3X"] ∧
    (extract_bundle_darwin "/Users/u/Downloads/bundle-042.dmg" "/tmp/install_tmpdir"
        "/dev/disk2 /Volumes/dmg.Ab3X\n" (fun _ => .raise "CalledProcessError")).2 =
      .raise "CalledProcessError" := by
  refine ⟨by decide, ?_, ?_⟩
  · exact (extract_bundle_darwin_always_detaches "/Users/u/Downloads/bundle-042.dmg"
      "/tmp/install_tmpdir" "/dev/disk2 /Volumes/dmg.Ab3X\n" "/Volumes/dmg.Ab3X"
      (fun _ => .raise "CalledProcessError") (by decide)).1
  · exact (extract_bundle_darwin_always_detaches "/Users/u/Downloads/bundle-042.dmg"
      "/tmp/install_tmpdir" "/dev/disk2 /Volumes/dmg.Ab3X\n" "/Volumes/dmg.Ab3X"
      (fun _ => .raise "CalledProcessError") (by decide)).2

/-! ## Claim C10: the download removes the previous file before the request -/

/-- C10: the pre-existing target is deleted before the request goes out, so
a non-success (4xx/5xx) status leaves *no* file at the target — the raise
happens with the previous content already removed and nothing new written. -/
theorem download_file_error_removes_previous (pre : Option String) (status : Nat)
    (content_length : Option String) (chunks : List String)
    (h4 : 400 ≤ status) (h6 : status < 600) :
    download_file pre status content_length chunks = (none, .raise "HTTPError") := by
  cases pre <;> simp [download_file, h4, h6]

/-- C10 witness: a 404 with a previously downloaded installer present. -/
theorem download_file_error_removes_previous_witness :
    (400 ≤ 404 ∧ 404 < 600) ∧
    download_file (some "previous installer bytes") 404 (some "1000") ["chunk"] =
      (none, .raise "HTTPError") :=
  ⟨⟨by decide, by decide⟩,
    download_file_error_removes_previous (some "previous installer bytes") 404
      (some "1000") ["chunk"] (by decide) (by decide)⟩
